import Mathlib

/-!
# Verification of the video-stealth-modifier processing pipeline

Shallow embedding, in Lean 4, of the parts of the repository that the
frozen claims are about:

* the `VideoSettings` value object and its documented defaults
  (`constants.ts`, `types.ts`);
* AI-suggestion ingestion and the suggestion handler
  (`App.tsx`, `handleSuggestSettings`);
* the persisted-settings initializer (`App.tsx`, `currentSettings`
  `useState` initializer);
* the render/record pipeline of `useVideoProcessor`
  (`cleanup`, `processVideo` / `onloadedmetadata` setup, `drawFrame`
  progress and overlay updates);
* the derived download filename (`App.tsx`, download anchor).

JavaScript numbers are embedded as `ℚ` (or `ℝ` where the claim is about
real-valued angle arithmetic with π); JS strings as `String` or
`List Char`; JSON values as an inductive type.  Effectful statements are
embedded as explicit state passing plus a list of emitted effects.
-/

namespace VideoStealth

/-! ## JSON values (results of `JSON.parse`) -/

/-- A parsed JSON leaf/field value, as produced by the host's
`JSON.parse`: numbers, booleans, strings, or `null`.  (Nested
objects/arrays never match `typeof number/boolean` in the ingestion
code, so they behave exactly like `str`/`null` there; a separate
constructor is not needed for the claims at hand.) -/
inductive JsValue where
  | num (q : ℚ)
  | bool (b : Bool)
  | str (s : String)
  | null
deriving DecidableEq

/-- A parsed JSON object: association list of field name to value. -/
def JsObj := List (String × JsValue)

/-- `o.hasOwnProperty(k)` followed by `o[k]`: the value stored under
key `k`, if present. -/
def lookupJs (o : JsObj) (k : String) : Option JsValue :=
  (List.find? (fun p => p.1 = k) o).map (fun p => p.2)

/-! ## Settings model (`types.ts` / `constants.ts`) -/

/-- The `VideoSettings` interface from `types.ts`.  Numeric JS fields
are embedded as `ℚ`. -/
structure VideoSettings where
  brightness : ℚ
  contrast : ℚ
  saturation : ℚ
  playbackSpeed : ℚ
  volume : ℚ
  flipHorizontal : Bool
  enableRotatingLines : Bool
  enablePixelNoise : Bool
  audioPreservesPitch : Bool
deriving DecidableEq

/-- `DEFAULT_VIDEO_SETTINGS` from `constants.ts`. -/
def DEFAULT_VIDEO_SETTINGS : VideoSettings :=
  { brightness := 100
    contrast := 100
    saturation := 100
    playbackSpeed := 1
    volume := 100
    flipHorizontal := false
    enableRotatingLines := false
    enablePixelNoise := false
    audioPreservesPitch := true }

/-! ## AI-suggestion ingestion (`App.tsx`, `handleSuggestSettings`) -/

/-- `Math.max(range.min, Math.min(range.max, suggestedValue))`. -/
def clampRange (lo hi v : ℚ) : ℚ := max lo (min hi v)

/-- Ingestion of one numeric settings field, per the `forEach` body of
`handleSuggestSettings`: if the suggested object has the key and the
value is a number, clamp it into `[lo, hi]` and report the field valid;
otherwise keep the default and report it invalid.  Returns
`(field value, field was present with matching type)`. -/
def ingestNum (o : JsObj) (key : String) (lo hi dflt : ℚ) : ℚ × Bool :=
  match lookupJs o key with
  | some (JsValue.num q) => (clampRange lo hi q, true)
  | some _ => (dflt, false)
  | none => (dflt, false)

/-- Ingestion of one boolean settings field: a present boolean value is
accepted verbatim; anything else keeps the default and is invalid. -/
def ingestBool (o : JsObj) (key : String) (dflt : Bool) : Bool × Bool :=
  match lookupJs o key with
  | some (JsValue.bool b) => (b, true)
  | some _ => (dflt, false)
  | none => (dflt, false)

/-- The validation loop of `handleSuggestSettings` (lines 193–223):
`newSettings` starts from `DEFAULT_VIDEO_SETTINGS` and each field is
ingested independently with the `ranges` table
(brightness/contrast/saturation 0–200, playbackSpeed 0.5–2.0,
volume 0–100).  Returns the new settings and the `allFieldsValid`
flag. -/
def ingestSuggestion (o : JsObj) : VideoSettings × Bool :=
  let b := ingestNum o "brightness" 0 200 DEFAULT_VIDEO_SETTINGS.brightness
  let c := ingestNum o "contrast" 0 200 DEFAULT_VIDEO_SETTINGS.contrast
  let sat := ingestNum o "saturation" 0 200 DEFAULT_VIDEO_SETTINGS.saturation
  let ps := ingestNum o "playbackSpeed" (1/2) 2 DEFAULT_VIDEO_SETTINGS.playbackSpeed
  let v := ingestNum o "volume" 0 100 DEFAULT_VIDEO_SETTINGS.volume
  let fh := ingestBool o "flipHorizontal" DEFAULT_VIDEO_SETTINGS.flipHorizontal
  let rl := ingestBool o "enableRotatingLines" DEFAULT_VIDEO_SETTINGS.enableRotatingLines
  let pn := ingestBool o "enablePixelNoise" DEFAULT_VIDEO_SETTINGS.enablePixelNoise
  let pp := ingestBool o "audioPreservesPitch" DEFAULT_VIDEO_SETTINGS.audioPreservesPitch
  ({ brightness := b.1
     contrast := c.1
     saturation := sat.1
     playbackSpeed := ps.1
     volume := v.1
     flipHorizontal := fh.1
     enableRotatingLines := rl.1
     enablePixelNoise := pn.1
     audioPreservesPitch := pp.1 },
   b.2 && c.2 && sat.2 && ps.2 && v.2 && fh.2 && rl.2 && pn.2 && pp.2)

/-! ## App state around the suggestion handler (`App.tsx`) -/

/-- The slice of `useVideoProcessor` state that `App.tsx` renders; the
suggestion handler never touches it. -/
structure ProcessorUI where
  isProcessing : Bool
  processedVideoUrl : Option String
  processingError : Option String
  progress : ℤ
deriving DecidableEq

/-- The `App` component state relevant to the suggestion flow. -/
structure AppState where
  currentSettings : VideoSettings
  geminiError : Option String
  isSuggestingSettings : Bool
  processor : ProcessorUI
deriving DecidableEq

/-- The `catch` branch message of `handleSuggestSettings`. -/
def suggestFailureMessage (emsg : String) : String :=
  "Failed to get AI suggestions: " ++ emsg ++
    ". Please try again or adjust settings manually."

/-- The "partially applied" warning of `handleSuggestSettings`. -/
def suggestWarningMessage : String :=
  "AI suggestion was partially applied. Some fields were missing or invalid and set to defaults."

/-- `handleSuggestSettings` from `App.tsx` (lines 183–235), from the
point where the AI response text has been fence-stripped and handed to
`JSON.parse`: `parsed = none` models a `JSON.parse` (or request)
failure with error message `emsg`, taking the `catch` branch;
`parsed = some o` models a successful parse, which ingests `o` and
applies the result with `setCurrentSettings`.  The `finally` branch
clears `isSuggestingSettings` in both cases.  The processor state is
never touched. -/
def handleSuggestSettings (parsed : Option JsObj) (emsg : String)
    (s : AppState) : AppState :=
  match parsed with
  | none =>
      { s with geminiError := some (suggestFailureMessage emsg)
               isSuggestingSettings := false }
  | some o =>
      let r := ingestSuggestion o
      { s with currentSettings := r.1
               geminiError := if r.2 then none else some suggestWarningMessage
               isSuggestingSettings := false }

/-! ## Persisted settings (`App.tsx`, `currentSettings` initializer) -/

/-- `DEFAULT_VIDEO_SETTINGS` as the JS object being spread in
`{ ...DEFAULT_VIDEO_SETTINGS, ...parsed }`. -/
def defaultsJsObj : JsObj :=
  [("brightness", JsValue.num 100),
   ("contrast", JsValue.num 100),
   ("saturation", JsValue.num 100),
   ("playbackSpeed", JsValue.num 1),
   ("volume", JsValue.num 100),
   ("flipHorizontal", JsValue.bool false),
   ("enableRotatingLines", JsValue.bool false),
   ("enablePixelNoise", JsValue.bool false),
   ("audioPreservesPitch", JsValue.bool true)]

/-- The `currentSettings` `useState` initializer of `App.tsx`
(lines 45–57), observed at a settings key: when nothing was persisted
or `JSON.parse` threw (`saved = none`), the defaults are returned;
otherwise the spread `{ ...DEFAULT_VIDEO_SETTINGS, ...parsed }` yields
the parsed object's value for every key it carries — with no clamping
and no type validation — and the default otherwise. -/
def loadStoredSetting (saved : Option JsObj) (key : String) : Option JsValue :=
  match saved with
  | none => lookupJs defaultsJsObj key
  | some parsed =>
      match lookupJs parsed key with
      | some v => some v
      | none => lookupJs defaultsJsObj key

/-! ## Processor resource state and `cleanup` (`useVideoProcessor.ts`) -/

/-- `MediaRecorder.state` values the hook distinguishes. -/
inductive RecState where
  | recording
  | inactive
deriving DecidableEq

/-- `AudioContext.state` values. -/
inductive CtxState where
  | running
  | suspended
  | closed
deriving DecidableEq

/-- The mutable refs owned by `useVideoProcessor`
(lines 14–19): scheduling handle, recorder, chunk buffer, source video
element, canvas, audio context.  `animationFrameId = 0` encodes "no
pending frame"; chunk identities are abstracted to `ℕ`. -/
structure ProcState where
  animationFrameId : ℕ
  mediaRecorder : Option RecState
  recordedChunks : List ℕ
  sourceVideoPresent : Bool
  canvasPresent : Bool
  audioContext : Option CtxState
deriving DecidableEq

/-- Externally observable operations `cleanup` can perform on the
runtime (each would throw or misbehave if issued in the wrong state,
e.g. `stop()` on a non-recording recorder or `close()` on a closed
context). -/
inductive CleanupEffect where
  | cancelFrame (id : ℕ)
  | stopRecorder
  | pauseVideo
  | detachVideo
  | closeContext
deriving DecidableEq

/-- The `cleanup` callback (lines 25–49): cancel a pending frame if
any; stop the recorder only if it is in state `recording`; null the
recorder and clear the chunk buffer; pause/detach/discard the source
video if present; discard the canvas; close the audio context only if
present and not already `closed` (in which case the ref is also
nulled — an already-closed context is left in place untouched).
Returns the new ref state and the list of runtime operations
performed. -/
def cleanup (s : ProcState) : ProcState × List CleanupEffect :=
  let e1 : List CleanupEffect :=
    if s.animationFrameId ≠ 0 then [CleanupEffect.cancelFrame s.animationFrameId] else []
  let e2 : List CleanupEffect :=
    if s.mediaRecorder = some RecState.recording then [CleanupEffect.stopRecorder] else []
  let e3 : List CleanupEffect :=
    if s.sourceVideoPresent then [CleanupEffect.pauseVideo, CleanupEffect.detachVideo] else []
  let ctxStep : List CleanupEffect × Option CtxState :=
    match s.audioContext with
    | some c => if c ≠ CtxState.closed then ([CleanupEffect.closeContext], none) else ([], some c)
    | none => ([], none)
  ({ animationFrameId := 0
     mediaRecorder := none
     recordedChunks := []
     sourceVideoPresent := false
     canvasPresent := false
     audioContext := ctxStep.2 },
   e1 ++ e2 ++ e3 ++ ctxStep.1)

/-- The ref state when no session is (or ever was) active. -/
def idleProcState : ProcState :=
  { animationFrameId := 0
    mediaRecorder := none
    recordedChunks := []
    sourceVideoPresent := false
    canvasPresent := false
    audioContext := none }

/-! ## Session setup (`processVideo`, `onloadedmetadata` body) -/

/-- Tracks of the combined `MediaStream`. -/
inductive StreamTrack where
  | video
  | audio
deriving DecidableEq

/-- The constructed audio path (source → gain → destination); only the
gain value matters to the claims. -/
structure AudioPath where
  gain : ℚ
deriving DecidableEq

/-- Result of a successful setup: the audio track (if the audio graph
was built), the combined track list, and whether `mediaRecorder.start()`
was reached. -/
structure SetupResult where
  audioTrack : Option AudioPath
  tracks : List StreamTrack
  recorderStarted : Bool
deriving DecidableEq

/-- Observable milestones of the `onloadedmetadata` body, in program
order. -/
inductive PipeEvent where
  | warnAudio
  | captureStream
  | checkMime
  | constructRecorder
  | startRecorder
deriving DecidableEq

/-- Host-capability environment the `onloadedmetadata` body consults:
the three audio-track-presence probes (`audioTracks`, `mozHasAudio`,
`webkitAudioDecodedByteCount`), whether the audio-node construction in
the `try` block succeeds, `MediaRecorder.isTypeSupported`, and whether
`new MediaRecorder` succeeds (with the thrown message when not). -/
structure PipelineEnv where
  hasAudioTracks : Bool
  hasMozAudio : Bool
  hasWebkitAudio : Bool
  audioGraphOk : Bool
  mimeSupported : Bool
  recorderCtorOk : Bool
  ctorErrMessage : String
deriving DecidableEq

/-- The fixed target container/codec pair (line 149). -/
def targetMimeType : String := "video/webm;codecs=vp8,opus"

/-- The capability-failure message (line 151); it names the missing
MIME type and the WEBM (VP8/Opus) capability. -/
def mimeUnsupportedMessage : String :=
  "MIME type " ++ targetMimeType ++
    " not supported for MediaRecorder. Your browser may not support WEBM (VP8/Opus) recording."

/-- The `onloadedmetadata` body of `processVideo` (lines 112–327),
from the audio probe to `mediaRecorder.start()`: probe the audio
signals; if any is positive, try to build the gain-adjusted audio graph
(`gain = volume / 100`), logging a warning and continuing without audio
on failure; capture the canvas stream and combine the tracks; validate
`targetMimeType` with `isTypeSupported` and fail with
`mimeUnsupportedMessage` when unsupported; construct the recorder
(failing with its message if the constructor throws); then start it.
Returns the emitted milestones and the outcome. -/
def onLoadedMetadataSetup (env : PipelineEnv) (settings : VideoSettings) :
    List PipeEvent × Except String SetupResult :=
  let hasAudioSignal := env.hasAudioTracks || env.hasMozAudio || env.hasWebkitAudio
  let audioProbe : List PipeEvent × Option AudioPath :=
    if hasAudioSignal then
      if env.audioGraphOk then ([], some { gain := settings.volume / 100 })
      else ([PipeEvent.warnAudio], none)
    else ([], none)
  let events1 := audioProbe.1 ++ [PipeEvent.captureStream]
  let tracks :=
    StreamTrack.video :: (if audioProbe.2.isSome then [StreamTrack.audio] else [])
  let events2 := events1 ++ [PipeEvent.checkMime]
  if ¬ env.mimeSupported then
    (events2, Except.error mimeUnsupportedMessage)
  else if ¬ env.recorderCtorOk then
    (events2, Except.error ("Failed to create MediaRecorder: " ++ env.ctorErrMessage ++ "."))
  else
    (events2 ++ [PipeEvent.constructRecorder, PipeEvent.startRecorder],
     Except.ok { audioTrack := audioProbe.2, tracks := tracks, recorderStarted := true })

/-! ## Progress reporting (`processVideo` / `drawFrame`) -/

/-- `Math.round` on a non-negative value: round half toward +∞. -/
def jsRound (q : ℚ) : ℤ := ⌊q + 1/2⌋

/-- The progress expression of `drawFrame` (line 286):
`Math.min(100, Math.round((currentTime / duration) * 100))`. -/
def computeProgress (ct d : ℚ) : ℤ := min 100 (jsRound (ct / d * 100))

/-- Progress-relevant events of one render session: a `drawFrame`
invocation observing playback position `ct` and duration `d`, the
successful `onstop` of the recorder, or a fatal error (whose handlers
never touch `progress`). -/
inductive SessionEvent where
  | frame (ct d : ℚ)
  | finish
  | fail
deriving DecidableEq

/-- Effect of one session event on the reported `progress` value:
`drawFrame` sets it to `computeProgress` guarded by `duration > 0`
(lines 285–287), `onstop` forces it to 100 (line 185), error handlers
leave it unchanged. -/
def progressStep (p : ℤ) (e : SessionEvent) : ℤ :=
  match e with
  | SessionEvent.frame ct d => if 0 < d then computeProgress ct d else p
  | SessionEvent.finish => 100
  | SessionEvent.fail => p

/-- The reported progress after a list of session events, starting from
the `setProgress(0)` issued at the top of `processVideo` (line 75). -/
def runProgress (evs : List SessionEvent) : ℤ :=
  evs.foldl progressStep 0

/-! ## Pixel noise (`drawFrame`, lines 237–248) -/

/-- `Math.floor((width * height) * 0.001)`: the per-frame noise-mark
count. -/
def numNoisePixels (w h : ℕ) : ℕ :=
  (⌊((w : ℚ) * (h : ℚ)) * (1/1000)⌋).toNat

/-- `Math.random() > 0.5 ? 220 : 30`: the gray intensity of one noise
mark, chosen from the random draw `r`. -/
def noiseIntensity (r : ℚ) : ℕ := if 1/2 < r then 220 else 30

/-- One drawn noise mark: a 1×1 `fillRect` at `(x, y)` with gray level
`intensity` and opacity `alpha`. -/
structure NoiseMark where
  x : ℚ
  y : ℚ
  intensity : ℕ
  alpha : ℚ
deriving DecidableEq

/-- One iteration of the noise loop, fed four independent
`Math.random()` draws: `x = r1 * width`, `y = r2 * height` (no
rounding — the fractional values are passed to `fillRect` as-is),
intensity from `r3`, `alpha = r4 * 0.05 + 0.02`. -/
def mkNoiseMark (w h : ℕ) (r1 r2 r3 r4 : ℚ) : NoiseMark :=
  { x := r1 * w
    y := r2 * h
    intensity := noiseIntensity r3
    alpha := r4 * (1/20) + 1/50 }

/-- The full noise block of one frame: `numNoisePixels w h` marks, the
`i`-th consuming the draws `rand (4*i) … rand (4*i+3)` of the ambient
random stream. -/
def drawNoise (w h : ℕ) (rand : ℕ → ℚ) : List NoiseMark :=
  (List.range (numNoisePixels w h)).map
    (fun i => mkNoiseMark w h (rand (4*i)) (rand (4*i+1)) (rand (4*i+2)) (rand (4*i+3)))

/-! ## Derived download filename (`App.tsx`, line 333) -/

/-- JS `String.prototype.split('.')` on a character list: splits at
every `'.'`, keeping empty segments (`"" → [""]`, `"a." → ["a",""]`). -/
def splitDot : List Char → List (List Char)
  | [] => [[]]
  | c :: cs =>
      if c = '.' then [] :: splitDot cs
      else
        match splitDot cs with
        | [] => [[c]]
        | h :: t => (c :: h) :: t

/-- The download attribute
``modified_${videoFile?.name.split('.')[0] || 'video'}.webm``:
the segment before the first dot, with fallback `"video"` when that
segment is empty (the falsy `||` case). -/
def downloadName (name : List Char) : List Char :=
  let base := (splitDot name).headD []
  "modified_".toList ++ (if base.isEmpty then "video".toList else base) ++ ".webm".toList

/-- The basename with only its final extension removed (everything
before the last dot; the name itself when it has no dot). -/
def stripFinalExtension (name : List Char) : List Char :=
  let parts := splitDot name
  if parts.length ≤ 1 then name else List.intercalate ['.'] parts.dropLast

/-- Follows the spec's words (§6): derived filename
`modified_<original-basename>.<target-extension>` where the basename is
the original name with its final extension removed.  Comparator for the
refinement claim C9; `downloadName` above is the code's behavior. -/
def specDownloadName (name : List Char) : List Char :=
  "modified_".toList ++ stripFinalExtension name ++ ".webm".toList

/-! ## Rotating-lines phase angles (`drawFrame`, lines 216–260)

The angle arithmetic is embedded over `ℝ` (the claims are statements
about multiples of π).  JS `%` is the truncated remainder: for a
positive modulus it is `x - p * trunc (x / p)`, with `trunc` rounding
toward zero. -/

open Real in
/-- JS `x % p` for a positive modulus `p`: truncated remainder
(`⌊·⌋` for a non-negative dividend, `⌈·⌉` for a negative one, matching
`trunc`'s rounding toward zero). -/
noncomputable def jsMod (p x : ℝ) : ℝ :=
  if 0 ≤ x then x - p * ⌊x / p⌋ else x - p * ⌈x / p⌉

open Real in
/-- `(2 * Math.PI) / (ROTATION_DURATION_SECONDS * FPS)` with the
constants `FPS = 30`, `ROTATION_DURATION_SECONDS = 30` (line 216). -/
noncomputable def rotationIncrementPerFrame : ℝ := (2 * π) / (30 * 30)

open Real in
/-- The two phase angles after `n` frames with `enableRotatingLines`
on.  Frame 0 is the initial ref state
(`rotationAngle1Ref = 0`, `rotationAngle2Ref = Math.PI / 2`,
lines 22–23 / 79–80); each frame performs the updates of
lines 257–260: `a1 += inc; a2 -= inc; a1 %= 2π;
a2 = (a2 % 2π + 2π) % 2π`. -/
noncomputable def rotationAngles : ℕ → ℝ × ℝ
  | 0 => (0, π / 2)
  | n + 1 =>
      let prev := rotationAngles n
      (jsMod (2 * π) (prev.1 + rotationIncrementPerFrame),
       jsMod (2 * π) (jsMod (2 * π) (prev.2 - rotationIncrementPerFrame) + 2 * π))

open Real in
/-- Mathematical wrap of an angle into `[0, 2π)`. -/
noncomputable def wrapAngle (x : ℝ) : ℝ := (2 * π) * Int.fract (x / (2 * π))

/-! ## Helper lemmas: per-field ingestion -/

lemma ingestNum_range (o : JsObj) (key : String) (lo hi dflt : ℚ)
    (hlohi : lo ≤ hi) (h1 : lo ≤ dflt) (h2 : dflt ≤ hi) :
    lo ≤ (ingestNum o key lo hi dflt).1 ∧ (ingestNum o key lo hi dflt).1 ≤ hi := by
  unfold ingestNum
  cases h : lookupJs o key with
  | none => exact ⟨h1, h2⟩
  | some v =>
      cases v with
      | num q =>
          refine ⟨le_max_left _ _, max_le hlohi (min_le_left _ _)⟩
      | bool b => exact ⟨h1, h2⟩
      | str s => exact ⟨h1, h2⟩
      | null => exact ⟨h1, h2⟩

lemma ingestNum_absent {o : JsObj} {key : String} {lo hi dflt : ℚ}
    (h : lookupJs o key = none) : (ingestNum o key lo hi dflt).1 = dflt := by
  unfold ingestNum
  rw [h]

lemma ingestNum_mismatch {o : JsObj} {key : String} {lo hi dflt : ℚ} {v : JsValue}
    (h : lookupJs o key = some v) (hv : ∀ q : ℚ, v ≠ JsValue.num q) :
    (ingestNum o key lo hi dflt).1 = dflt := by
  unfold ingestNum
  rw [h]
  cases v with
  | num q => exact absurd rfl (hv q)
  | bool b => rfl
  | str s => rfl
  | null => rfl

lemma ingestBool_absent {o : JsObj} {key : String} {dflt : Bool}
    (h : lookupJs o key = none) : (ingestBool o key dflt).1 = dflt := by
  unfold ingestBool
  rw [h]

lemma ingestBool_mismatch {o : JsObj} {key : String} {dflt : Bool} {v : JsValue}
    (h : lookupJs o key = some v) (hv : ∀ b : Bool, v ≠ JsValue.bool b) :
    (ingestBool o key dflt).1 = dflt := by
  unfold ingestBool
  rw [h]
  cases v with
  | num q => rfl
  | bool b => exact absurd rfl (hv b)
  | str s => rfl
  | null => rfl

/-! ## C1 -/

/-- C1 is refuted on the persisted-settings path: a stored object with
`brightness = 500` is spread over the defaults verbatim, so the
resulting settings carry the out-of-range value 500 instead of a value
clamped into `[0, 200]`. -/
theorem c1_counterexample :
    loadStoredSetting (some [("brightness", JsValue.num 500)]) "brightness"
      = some (JsValue.num 500) ∧ ¬ ((500 : ℚ) ≤ 200) := by
  constructor
  · rfl
  · norm_num

/-- C1 (amended): settings ingested from an AI suggestion satisfy the
documented ranges (numeric fields clamped, type-mismatched fields
replaced by their defaults, boolean fields exactly `true`/`false`);
but a persisted settings object read from client-local storage is
merged over the defaults verbatim, without clamping or per-field type
validation — only a missing or unparsable stored value falls back to
the defaults (wholesale). -/
theorem c1_external_settings_validation :
    (∀ o : JsObj,
       0 ≤ (ingestSuggestion o).1.brightness ∧ (ingestSuggestion o).1.brightness ≤ 200 ∧
       0 ≤ (ingestSuggestion o).1.contrast ∧ (ingestSuggestion o).1.contrast ≤ 200 ∧
       0 ≤ (ingestSuggestion o).1.saturation ∧ (ingestSuggestion o).1.saturation ≤ 200 ∧
       1/2 ≤ (ingestSuggestion o).1.playbackSpeed ∧ (ingestSuggestion o).1.playbackSpeed ≤ 2 ∧
       0 ≤ (ingestSuggestion o).1.volume ∧ (ingestSuggestion o).1.volume ≤ 100 ∧
       ((ingestSuggestion o).1.flipHorizontal = true ∨ (ingestSuggestion o).1.flipHorizontal = false)) ∧
    (∀ (o : JsObj) (v : JsValue), lookupJs o "brightness" = some v →
       (∀ q : ℚ, v ≠ JsValue.num q) →
       (ingestSuggestion o).1.brightness = DEFAULT_VIDEO_SETTINGS.brightness) ∧
    (∀ (o : JsObj) (v : JsValue), lookupJs o "audioPreservesPitch" = some v →
       (∀ b : Bool, v ≠ JsValue.bool b) →
       (ingestSuggestion o).1.audioPreservesPitch = DEFAULT_VIDEO_SETTINGS.audioPreservesPitch) ∧
    (∀ (o : JsObj) (key : String) (v : JsValue), lookupJs o key = some v →
       loadStoredSetting (some o) key = some v) ∧
    (∀ key : String, loadStoredSetting none key = lookupJs defaultsJsObj key) := by
  refine ⟨?_, ?_, ?_, ?_, ?_⟩
  · intro o
    have hb := ingestNum_range o "brightness" 0 200 DEFAULT_VIDEO_SETTINGS.brightness
      (by norm_num) (by norm_num [DEFAULT_VIDEO_SETTINGS]) (by norm_num [DEFAULT_VIDEO_SETTINGS])
    have hc := ingestNum_range o "contrast" 0 200 DEFAULT_VIDEO_SETTINGS.contrast
      (by norm_num) (by norm_num [DEFAULT_VIDEO_SETTINGS]) (by norm_num [DEFAULT_VIDEO_SETTINGS])
    have hs := ingestNum_range o "saturation" 0 200 DEFAULT_VIDEO_SETTINGS.saturation
      (by norm_num) (by norm_num [DEFAULT_VIDEO_SETTINGS]) (by norm_num [DEFAULT_VIDEO_SETTINGS])
    have hp := ingestNum_range o "playbackSpeed" (1/2) 2 DEFAULT_VIDEO_SETTINGS.playbackSpeed
      (by norm_num) (by norm_num [DEFAULT_VIDEO_SETTINGS]) (by norm_num [DEFAULT_VIDEO_SETTINGS])
    have hv := ingestNum_range o "volume" 0 100 DEFAULT_VIDEO_SETTINGS.volume
      (by norm_num) (by norm_num [DEFAULT_VIDEO_SETTINGS]) (by norm_num [DEFAULT_VIDEO_SETTINGS])
    exact ⟨hb.1, hb.2, hc.1, hc.2, hs.1, hs.2, hp.1, hp.2, hv.1, hv.2,
      by cases (ingestSuggestion o).1.flipHorizontal <;> simp⟩
  · intro o v h hv
    exact ingestNum_mismatch h hv
  · intro o v h hv
    exact ingestBool_mismatch h hv
  · intro o key v h
    simp [loadStoredSetting, h]
  · intro key
    rfl

/-- Witness for `c1_external_settings_validation` at concrete inputs:
the empty suggestion object keeps `brightness` in range, and a stored
out-of-range `volume` passes through untouched. -/
theorem c1_external_settings_validation_witness :
    (0 ≤ (ingestSuggestion []).1.brightness ∧ (ingestSuggestion []).1.brightness ≤ 200) ∧
    loadStoredSetting (some [("volume", JsValue.num 300)]) "volume"
      = some (JsValue.num 300) :=
  ⟨⟨(c1_external_settings_validation.1 []).1, (c1_external_settings_validation.1 []).2.1⟩,
   c1_external_settings_validation.2.2.2.1 [("volume", JsValue.num 300)] "volume"
     (JsValue.num 300) rfl⟩

/-! ## C8 -/

/-- C8: when the (fence-stripped) AI response fails to parse as JSON,
only the suggestion operation fails: the handler surfaces an error
message for that request, leaves `currentSettings` unchanged, and —
for any parse outcome whatsoever — never touches the processor
(render) state, so no in-progress or future render is affected. -/
theorem c8_parse_failure_isolated :
    ∀ (emsg : String) (s : AppState),
      (handleSuggestSettings none emsg s).currentSettings = s.currentSettings ∧
      (handleSuggestSettings none emsg s).geminiError
        = some (suggestFailureMessage emsg) ∧
      (handleSuggestSettings none emsg s).processor = s.processor ∧
      (∀ parsed : Option JsObj,
        (handleSuggestSettings parsed emsg s).processor = s.processor) := by
  intro emsg s
  refine ⟨rfl, rfl, rfl, ?_⟩
  intro parsed
  cases parsed with
  | none => rfl
  | some o => rfl

/-! ## C10 -/

/-- C10: on a successfully parsed AI response the applied settings are
built starting from `DEFAULT_VIDEO_SETTINGS`, independently of the
user's current settings; every field that is absent from the response,
or carries a value of the wrong basic type, ends up at its documented
default — silently discarding any prior manual adjustment of that
field. -/
theorem c10_suggestion_starts_from_defaults :
    ∀ (o : JsObj) (emsg : String) (s t : AppState),
      (handleSuggestSettings (some o) emsg s).currentSettings
        = (handleSuggestSettings (some o) emsg t).currentSettings ∧
      (handleSuggestSettings (some o) emsg s).currentSettings = (ingestSuggestion o).1 ∧
      (lookupJs o "brightness" = none →
        (ingestSuggestion o).1.brightness = DEFAULT_VIDEO_SETTINGS.brightness) ∧
      (lookupJs o "contrast" = none →
        (ingestSuggestion o).1.contrast = DEFAULT_VIDEO_SETTINGS.contrast) ∧
      (lookupJs o "saturation" = none →
        (ingestSuggestion o).1.saturation = DEFAULT_VIDEO_SETTINGS.saturation) ∧
      (lookupJs o "playbackSpeed" = none →
        (ingestSuggestion o).1.playbackSpeed = DEFAULT_VIDEO_SETTINGS.playbackSpeed) ∧
      (lookupJs o "volume" = none →
        (ingestSuggestion o).1.volume = DEFAULT_VIDEO_SETTINGS.volume) ∧
      (lookupJs o "flipHorizontal" = none →
        (ingestSuggestion o).1.flipHorizontal = DEFAULT_VIDEO_SETTINGS.flipHorizontal) ∧
      (lookupJs o "enableRotatingLines" = none →
        (ingestSuggestion o).1.enableRotatingLines = DEFAULT_VIDEO_SETTINGS.enableRotatingLines) ∧
      (lookupJs o "enablePixelNoise" = none →
        (ingestSuggestion o).1.enablePixelNoise = DEFAULT_VIDEO_SETTINGS.enablePixelNoise) ∧
      (lookupJs o "audioPreservesPitch" = none →
        (ingestSuggestion o).1.audioPreservesPitch = DEFAULT_VIDEO_SETTINGS.audioPreservesPitch) ∧
      (∀ v : JsValue, lookupJs o "playbackSpeed" = some v → (∀ q : ℚ, v ≠ JsValue.num q) →
        (ingestSuggestion o).1.playbackSpeed = DEFAULT_VIDEO_SETTINGS.playbackSpeed) ∧
      (∀ v : JsValue, lookupJs o "flipHorizontal" = some v → (∀ b : Bool, v ≠ JsValue.bool b) →
        (ingestSuggestion o).1.flipHorizontal = DEFAULT_VIDEO_SETTINGS.flipHorizontal) := by
  intro o emsg s t
  refine ⟨rfl, rfl,
    fun h => ingestNum_absent h, fun h => ingestNum_absent h,
    fun h => ingestNum_absent h, fun h => ingestNum_absent h,
    fun h => ingestNum_absent h, fun h => ingestBool_absent h,
    fun h => ingestBool_absent h, fun h => ingestBool_absent h,
    fun h => ingestBool_absent h,
    fun v h hv => ingestNum_mismatch h hv,
    fun v h hv => ingestBool_mismatch h hv⟩

/-- A concrete `App` state used by witnesses. -/
def sampleAppState : AppState :=
  { currentSettings := DEFAULT_VIDEO_SETTINGS
    geminiError := none
    isSuggestingSettings := true
    processor :=
      { isProcessing := false
        processedVideoUrl := none
        processingError := none
        progress := 0 } }

/-- Witness for `c10_suggestion_starts_from_defaults` at the empty
suggestion object: the applied value is the ingestion result and the
absent `brightness` field is the default. -/
theorem c10_suggestion_starts_from_defaults_witness :
    (handleSuggestSettings (some []) "" sampleAppState).currentSettings
      = (ingestSuggestion []).1 ∧
    (ingestSuggestion []).1.brightness = DEFAULT_VIDEO_SETTINGS.brightness :=
  ⟨(c10_suggestion_starts_from_defaults [] "" sampleAppState sampleAppState).2.1,
   (c10_suggestion_starts_from_defaults [] "" sampleAppState sampleAppState).2.2.1 rfl⟩

/-! ## C7 -/

/-- C7: `cleanup` is idempotent and reentrant-safe.  Running it a
second time right after a first run changes nothing and performs no
runtime operation; running it with no active session is a no-op; it
stops the recorder exactly when the recorder is recording and closes
the audio context exactly when one is present and not already closed
(so a repeated close never happens); and afterwards the scheduling
handle, recorder, chunk buffer, source handle and canvas no longer
reference the prior session (the audio-context ref is either nulled or
was already closed). -/
theorem c7_cleanup_idempotent :
    ∀ s : ProcState,
      cleanup (cleanup s).1 = ((cleanup s).1, []) ∧
      cleanup idleProcState = (idleProcState, []) ∧
      (CleanupEffect.stopRecorder ∈ (cleanup s).2 ↔
        s.mediaRecorder = some RecState.recording) ∧
      (CleanupEffect.closeContext ∈ (cleanup s).2 ↔
        ∃ c : CtxState, s.audioContext = some c ∧ c ≠ CtxState.closed) ∧
      (cleanup s).1.animationFrameId = 0 ∧
      (cleanup s).1.mediaRecorder = none ∧
      (cleanup s).1.recordedChunks = [] ∧
      (cleanup s).1.sourceVideoPresent = false ∧
      (cleanup s).1.canvasPresent = false ∧
      ((cleanup s).1.audioContext = none ∨
        (cleanup s).1.audioContext = some CtxState.closed) := by
  intro s
  obtain ⟨fid, rec, chunks, vid, canv, actx⟩ := s
  cases actx with
  | none =>
      simp only [cleanup, idleProcState]
      split_ifs <;> simp_all [cleanup, idleProcState]
  | some c =>
      cases c <;>
        (simp only [cleanup, idleProcState]
         split_ifs <;> simp_all [cleanup, idleProcState])

/-! ## C5 -/

/-- C5: the target container/codec pair is validated with
`isTypeSupported` before any encoder is constructed — a run reaching
`constructRecorder` has a supported MIME — and when it is unsupported
the setup fails immediately with `mimeUnsupportedMessage` (which names
the `video/webm;codecs=vp8,opus` / WEBM (VP8/Opus) capability), no
encoder is ever constructed and recording is never started in that
session. -/
theorem c5_mime_validated_before_encoder :
    (∀ (env : PipelineEnv) (st : VideoSettings),
       env.mimeSupported = false →
       (onLoadedMetadataSetup env st).2 = Except.error mimeUnsupportedMessage ∧
       PipeEvent.constructRecorder ∉ (onLoadedMetadataSetup env st).1 ∧
       PipeEvent.startRecorder ∉ (onLoadedMetadataSetup env st).1) ∧
    (∀ (env : PipelineEnv) (st : VideoSettings),
       PipeEvent.constructRecorder ∈ (onLoadedMetadataSetup env st).1 →
       env.mimeSupported = true) := by
  constructor
  · intro env st h
    obtain ⟨a1, a2, a3, ag, ms, rc, msg⟩ := env
    subst h
    cases a1 <;> cases a2 <;> cases a3 <;> cases ag <;>
      simp [onLoadedMetadataSetup]
  · intro env st h
    obtain ⟨a1, a2, a3, ag, ms, rc, msg⟩ := env
    cases ms with
    | true => rfl
    | false =>
        exfalso
        cases a1 <;> cases a2 <;> cases a3 <;> cases ag <;>
          simp [onLoadedMetadataSetup] at h

/-- A host environment where everything is supported except as noted;
used by witnesses. -/
def sampleEnv : PipelineEnv :=
  { hasAudioTracks := true
    hasMozAudio := false
    hasWebkitAudio := false
    audioGraphOk := true
    mimeSupported := true
    recorderCtorOk := true
    ctorErrMessage := "" }

/-- Witness for `c5_mime_validated_before_encoder`: with recording
support absent, the setup fails with the capability message and never
constructs the encoder. -/
theorem c5_mime_validated_before_encoder_witness :
    (onLoadedMetadataSetup { sampleEnv with mimeSupported := false }
        DEFAULT_VIDEO_SETTINGS).2 = Except.error mimeUnsupportedMessage ∧
    PipeEvent.constructRecorder ∉
      (onLoadedMetadataSetup { sampleEnv with mimeSupported := false }
        DEFAULT_VIDEO_SETTINGS).1 :=
  ⟨(c5_mime_validated_before_encoder.1 _ DEFAULT_VIDEO_SETTINGS rfl).1,
   (c5_mime_validated_before_encoder.1 _ DEFAULT_VIDEO_SETTINGS rfl).2.1⟩

/-! ## C6 -/

/-- C6: whenever the audio graph is not built — either because no
positive audio-track-presence signal was probed (treated as "no
audio"), or because node construction threw (caught, logged as a
warning) — and the rest of the environment is functional, setup still
succeeds: the recorder starts on a video-only track list, no fatal
error is surfaced, and in the exception case the `warnAudio` log
milestone is emitted. -/
theorem c6_audio_failure_recoverable :
    ∀ (env : PipelineEnv) (st : VideoSettings),
      env.mimeSupported = true → env.recorderCtorOk = true →
      ((env.hasAudioTracks || env.hasMozAudio || env.hasWebkitAudio) = false ∨
        env.audioGraphOk = false) →
      (onLoadedMetadataSetup env st).2 =
        Except.ok { audioTrack := none
                    tracks := [StreamTrack.video]
                    recorderStarted := true } ∧
      (((env.hasAudioTracks || env.hasMozAudio || env.hasWebkitAudio) = true ∧
          env.audioGraphOk = false) →
        PipeEvent.warnAudio ∈ (onLoadedMetadataSetup env st).1) := by
  intro env st hm hr hfail
  obtain ⟨a1, a2, a3, ag, ms, rc, msg⟩ := env
  dsimp at hm hr hfail ⊢
  subst hm
  subst hr
  cases a1 <;> cases a2 <;> cases a3 <;> cases ag <;>
    simp_all [onLoadedMetadataSetup]

/-- Witness for `c6_audio_failure_recoverable`: a positive audio probe
whose graph construction fails still yields a started video-only
session, with the warning logged. -/
theorem c6_audio_failure_recoverable_witness :
    (onLoadedMetadataSetup { sampleEnv with audioGraphOk := false }
        DEFAULT_VIDEO_SETTINGS).2 =
      Except.ok { audioTrack := none
                  tracks := [StreamTrack.video]
                  recorderStarted := true } ∧
    PipeEvent.warnAudio ∈
      (onLoadedMetadataSetup { sampleEnv with audioGraphOk := false }
        DEFAULT_VIDEO_SETTINGS).1 :=
  ⟨(c6_audio_failure_recoverable _ DEFAULT_VIDEO_SETTINGS rfl rfl (Or.inr rfl)).1,
   (c6_audio_failure_recoverable _ DEFAULT_VIDEO_SETTINGS rfl rfl (Or.inr rfl)).2
     ⟨rfl, rfl⟩⟩

/-! ## C2 -/

/-- C2 is refuted on its "100 only on successful completion" part: a
session that has merely played to position 999 of duration 1000 — no
successful stop, no `finish` event, source not ended (999 < 1000) —
already reports progress exactly 100, because
`round(999/1000 * 100) = round(99.9) = 100` and the `min` clamp leaves
it there. -/
theorem c2_counterexample :
    runProgress [SessionEvent.frame 999 1000] = 100 ∧
    (999 : ℚ) < 1000 ∧
    SessionEvent.finish ∉ [SessionEvent.frame 999 1000] := by
  refine ⟨?_, by norm_num, by simp⟩
  show progressStep 0 (SessionEvent.frame 999 1000) = 100
  norm_num [progressStep, computeProgress, jsRound]

/-- C2 (amended): progress is 0 at session start; every frame report
equals `round(currentTime / duration * 100)` clamped to `[0, 100]`
(and stays within those bounds for non-negative positions); reports
are monotonically non-decreasing as the playback position advances;
successful completion forces progress to 100 and error events leave it
untouched.  However 100 is not exclusive to successful completion: it
is already reported by any frame with `currentTime / duration ≥ 199/200`
(see the counterexample), so "reaches 100 only on success" holds only
up to that final half-percent of playback. -/
theorem c2_progress_behavior :
    runProgress [] = 0 ∧
    (∀ (p : ℤ) (ct d : ℚ), 0 < d →
      progressStep p (SessionEvent.frame ct d) = min 100 (jsRound (ct / d * 100))) ∧
    (∀ ct ct' d : ℚ, 0 ≤ ct → ct ≤ ct' → 0 < d →
      computeProgress ct d ≤ computeProgress ct' d) ∧
    (∀ ct d : ℚ, 0 ≤ ct → 0 < d →
      0 ≤ computeProgress ct d ∧ computeProgress ct d ≤ 100) ∧
    (∀ p : ℤ, progressStep p SessionEvent.finish = 100) ∧
    (∀ p : ℤ, progressStep p SessionEvent.fail = p) := by
  refine ⟨rfl, ?_, ?_, ?_, fun p => rfl, fun p => rfl⟩
  · intro p ct d hd
    simp [progressStep, computeProgress, hd]
  · intro ct ct' d hct hle hd
    have hdiv : ct / d ≤ ct' / d := (div_le_div_iff_of_pos_right hd).mpr hle
    have hmul : ct / d * 100 ≤ ct' / d * 100 := by nlinarith
    exact min_le_min le_rfl (Int.floor_le_floor (by linarith))
  · intro ct d hct hd
    constructor
    · have h0 : (0 : ℚ) ≤ ct / d * 100 := by positivity
      have : (0 : ℤ) ≤ jsRound (ct / d * 100) := by
        have : (0 : ℤ) ≤ ⌊ct / d * 100 + 1/2⌋ := by
          apply Int.floor_nonneg.2
          linarith
        exact this
      exact le_min (by norm_num) this
    · exact min_le_left _ _

/-- Witness for `c2_progress_behavior` at concrete inputs: the frame
report at position 5 of duration 10, monotonicity from 5 to 7, and the
bounds at position 5. -/
theorem c2_progress_behavior_witness :
    progressStep 3 (SessionEvent.frame 5 10) = min 100 (jsRound (5 / 10 * 100)) ∧
    computeProgress 5 10 ≤ computeProgress 7 10 ∧
    0 ≤ computeProgress 5 10 :=
  ⟨c2_progress_behavior.2.1 3 5 10 (by norm_num),
   c2_progress_behavior.2.2.1 5 7 10 (by norm_num) (by norm_num) (by norm_num),
   (c2_progress_behavior.2.2.2.1 5 10 (by norm_num) (by norm_num)).1⟩

/-! ## C4 -/

/-- C4 is refuted on its "integer-rounded coordinate" part: the noise
loop passes `Math.random() * width` to `fillRect` unrounded, so on a
1000-wide surface the draw `r1 = 1/2000` places a mark at the
non-integer x-coordinate `1/2`. -/
theorem c4_counterexample :
    (mkNoiseMark 1000 1000 (1/2000) 0 0 0).x = 1/2 ∧
    ¬ ∃ n : ℤ, (mkNoiseMark 1000 1000 (1/2000) 0 0 0).x = (n : ℚ) := by
  have hx : (mkNoiseMark 1000 1000 (1/2000) 0 0 0).x = 1/2 := by
    norm_num [mkNoiseMark]
  refine ⟨hx, ?_⟩
  rintro ⟨n, hn⟩
  rw [hx] at hn
  have h2 : (2 : ℚ) * n = 1 := by linarith
  have h3 : (2 : ℤ) * n = 1 := by exact_mod_cast h2
  omega

/-- C4 (amended): with `enablePixelNoise` on, each frame draws exactly
`floor(width * height * 0.001)` noise marks (exactly 1000 on a
1000×1000 surface); each mark independently picks intensity 220 or 30 —
220 exactly on the upper half `(1/2, 1)` of the random draw, 30 on the
lower half, an even split of the uniform interval — and an alpha in
`[0.02, 0.07)`, and is drawn as a 1×1 translucent gray fill at an
independently random coordinate within the surface bounds; the
coordinates are fractional (not rounded to integers — see the
counterexample). -/
theorem c4_noise_marks :
    ∀ (w h : ℕ) (rand : ℕ → ℚ),
      (∀ k : ℕ, 0 ≤ rand k ∧ rand k < 1) →
      (drawNoise w h rand).length = numNoisePixels w h ∧
      numNoisePixels 1000 1000 = 1000 ∧
      (∀ m ∈ drawNoise w h rand,
        (m.intensity = 220 ∨ m.intensity = 30) ∧
        1/50 ≤ m.alpha ∧ m.alpha < 7/100 ∧
        0 ≤ m.x ∧ m.x < w ∧ 0 ≤ m.y ∧ m.y < h) ∧
      (∀ r : ℚ, (noiseIntensity r = 220 ↔ 1/2 < r) ∧
        (noiseIntensity r = 30 ↔ ¬ (1/2 < r))) := by
  intro w h rand hr
  refine ⟨by simp [drawNoise], by norm_num [numNoisePixels]; rfl, ?_, ?_⟩
  · intro m hm
    simp only [drawNoise, List.mem_map, List.mem_range] at hm
    obtain ⟨i, hi, rfl⟩ := hm
    have hw0 : w ≠ 0 := by
      rintro rfl
      norm_num [numNoisePixels] at hi
    have hh0 : h ≠ 0 := by
      rintro rfl
      norm_num [numNoisePixels] at hi
    have hw1 : (1 : ℚ) ≤ (w : ℚ) := by
      exact_mod_cast Nat.one_le_iff_ne_zero.2 hw0
    have hh1 : (1 : ℚ) ≤ (h : ℚ) := by
      exact_mod_cast Nat.one_le_iff_ne_zero.2 hh0
    have hr1 := hr (4*i)
    have hr2 := hr (4*i+1)
    have hr4 := hr (4*i+3)
    refine ⟨?_, ?_, ?_, ?_, ?_, ?_, ?_⟩
    · unfold mkNoiseMark noiseIntensity
      dsimp
      split_ifs with hc
      · exact Or.inl rfl
      · exact Or.inr rfl
    · unfold mkNoiseMark
      dsimp
      linarith [hr4.1]
    · unfold mkNoiseMark
      dsimp
      linarith [hr4.2]
    · exact mul_nonneg hr1.1 (by linarith)
    · calc rand (4*i) * (w : ℚ) < 1 * (w : ℚ) :=
            mul_lt_mul_of_pos_right hr1.2 (by linarith)
        _ = (w : ℚ) := one_mul _
    · exact mul_nonneg hr2.1 (by linarith)
    · calc rand (4*i+1) * (h : ℚ) < 1 * (h : ℚ) :=
            mul_lt_mul_of_pos_right hr2.2 (by linarith)
        _ = (h : ℚ) := one_mul _
  · intro r
    unfold noiseIntensity
    split_ifs with hc
    · exact ⟨⟨fun _ => hc, fun _ => rfl⟩,
        ⟨fun h220 => absurd h220 (by norm_num), fun hn => absurd hc hn⟩⟩
    · exact ⟨⟨fun h30 => absurd h30 (by norm_num), fun hlt => absurd hlt hc⟩,
        ⟨fun _ => hc, fun _ => rfl⟩⟩

/-- Witness for `c4_noise_marks` at a concrete uniform stream: the
constant draw `1/2` on a 1000×1000 surface produces exactly the
documented count. -/
theorem c4_noise_marks_witness :
    (drawNoise 1000 1000 (fun _ => 1/2)).length = numNoisePixels 1000 1000 ∧
    numNoisePixels 1000 1000 = 1000 :=
  ⟨(c4_noise_marks 1000 1000 (fun _ => 1/2)
      (fun k => ⟨by norm_num, by norm_num⟩)).1,
   (c4_noise_marks 1000 1000 (fun _ => 1/2)
      (fun k => ⟨by norm_num, by norm_num⟩)).2.1⟩

/-! ## C9 -/

/-- C9 is refuted for names with more than one dot: the code keeps only
the segment before the *first* dot (`name.split('.')[0]`), not the name
with its final extension removed, so `a.b.mp4` downloads as
`modified_a.webm` instead of the claimed `modified_a.b.webm`. -/
theorem c9_counterexample :
    downloadName "a.b.mp4".toList = "modified_a.webm".toList ∧
    specDownloadName "a.b.mp4".toList = "modified_a.b.webm".toList ∧
    downloadName "a.b.mp4".toList ≠ specDownloadName "a.b.mp4".toList ∧
    "a.b.mp4".toList ≠ [] := by
  refine ⟨by decide, by decide, by decide, by decide⟩

lemma splitDot_ne_nil (l : List Char) : splitDot l ≠ [] := by
  cases l with
  | nil => simp [splitDot]
  | cons c cs =>
      unfold splitDot
      split_ifs
      · simp
      · cases h : splitDot cs <;> simp

lemma intercalate_dot_singleton (a : List Char) : List.intercalate ['.'] [a] = a := by
  simp [List.intercalate]

lemma intercalate_dot_cons_cons (a b : List Char) (t : List (List Char)) :
    List.intercalate ['.'] (a :: b :: t) = a ++ '.' :: List.intercalate ['.'] (b :: t) := by
  simp [List.intercalate, List.intersperse_cons_cons]

/-- `splitDot` splits `l` at its dots: re-joining the parts with dots
recovers `l`. -/
lemma intercalate_splitDot (l : List Char) :
    List.intercalate ['.'] (splitDot l) = l := by
  induction l with
  | nil => simp [splitDot, List.intercalate]
  | cons c cs ih =>
      unfold splitDot
      split_ifs with hc
      · subst hc
        rcases h : splitDot cs with _ | ⟨h1, t1⟩
        · exact absurd h (splitDot_ne_nil cs)
        · rw [h] at ih
          rw [intercalate_dot_cons_cons, List.nil_append, ih]
      · rcases h : splitDot cs with _ | ⟨h1, t1⟩
        · exact absurd h (splitDot_ne_nil cs)
        · rw [h] at ih
          cases t1 with
          | nil =>
              rw [intercalate_dot_singleton]
              rw [intercalate_dot_singleton] at ih
              rw [ih]
          | cons d t2 =>
              rw [intercalate_dot_cons_cons]
              rw [intercalate_dot_cons_cons] at ih
              rw [List.cons_append, ih]

/-- No segment produced by `splitDot` contains a dot; in particular the
first one does not. -/
lemma dot_not_mem_splitDot_head (l : List Char) :
    '.' ∉ (splitDot l).headD [] := by
  induction l with
  | nil => simp [splitDot]
  | cons c cs ih =>
      unfold splitDot
      split_ifs with hc
      · simp
      · rcases h : splitDot cs with _ | ⟨h1, t1⟩
        · exact absurd h (splitDot_ne_nil cs)
        · rw [h] at ih
          simp only [List.headD_cons] at ih ⊢
          intro hmem
          rcases List.mem_cons.1 hmem with heq | hmem2
          · exact hc heq.symm
          · exact ih hmem2

lemma dot_mem_intercalate (a b : List Char) (t : List (List Char)) :
    '.' ∈ List.intercalate ['.'] (a :: b :: t) := by
  rw [intercalate_dot_cons_cons]
  exact List.mem_append.2 (Or.inr (List.mem_cons_self _ _))

lemma append_middle_cancel {p s x y : List Char} :
    p ++ x ++ s = p ++ y ++ s ↔ x = y := by
  constructor
  · intro h
    exact List.append_cancel_left (List.append_cancel_right h)
  · intro h
    rw [h]

/-- C9 (amended): the derived download filename is `modified_` followed
by the segment of the original name before its *first* dot (with
fallback `video` when that segment is empty) followed by `.webm`; it
coincides with the spec's "basename = name minus final extension"
derivation exactly when the name contains at most one dot and a
non-empty stem — that is, iff `split('.')` yields at most two parts
with the first non-empty (for dotless names the stem is the whole
name). -/
theorem c9_download_filename :
    ∀ name : List Char,
      downloadName name = specDownloadName name ↔
        ((splitDot name).length ≤ 2 ∧ (splitDot name).headD [] ≠ []) := by
  intro name
  unfold downloadName specDownloadName stripFinalExtension
  rw [append_middle_cancel]
  have hname := intercalate_splitDot name
  rcases hp : splitDot name with _ | ⟨a, _ | ⟨b, _ | ⟨c, t⟩⟩⟩
  · exact absurd hp (splitDot_ne_nil name)
  · rw [hp] at hname
    rw [intercalate_dot_singleton] at hname
    subst hname
    cases a with
    | nil => simp [List.headD]
    | cons x xs =>
        simp only [List.headD_cons, List.isEmpty_cons, if_neg Bool.false_ne_true,
          List.length_singleton]
        constructor
        · intro _
          exact ⟨by norm_num, by simp⟩
        · intro _
          trivial
  · rw [hp] at hname
    have hdrop : ([a, b] : List (List Char)).dropLast = [a] := rfl
    have hlen : ¬ (([a, b] : List (List Char)).length ≤ 1) := by simp
    rw [if_neg hlen, hdrop, intercalate_dot_singleton]
    cases a with
    | nil =>
        simp only [List.headD_cons, List.isEmpty_nil, if_pos rfl]
        constructor
        · intro h
          exact absurd h (by decide)
        · intro h
          exact absurd rfl h.2
    | cons x xs =>
        simp only [List.headD_cons, List.isEmpty_cons, if_neg Bool.false_ne_true]
        constructor
        · intro _
          exact ⟨by simp, by simp⟩
        · intro _
          trivial
  · dsimp only
    have hlen : ¬ ((a :: b :: c :: t).length ≤ 1) := by simp
    rw [if_neg hlen]
    have hdrop : (a :: b :: c :: t).dropLast = a :: b :: (c :: t).dropLast := rfl
    rw [hdrop]
    have hdot : '.' ∈ List.intercalate ['.'] (a :: b :: (c :: t).dropLast) :=
      dot_mem_intercalate _ _ _
    constructor
    · intro h
      exfalso
      split_ifs at h with hae
      · rw [← h] at hdot
        exact absurd hdot (by decide)
      · have hhead := dot_not_mem_splitDot_head name
        rw [hp] at hhead
        simp only [List.headD_cons] at hhead
        rw [← h] at hdot
        exact hhead hdot
    · intro h
      exfalso
      have := h.1
      simp at this

/-- Witness for `c9_download_filename` at `video.mp4`: a single-dot
name with a non-empty stem, where the code's filename agrees with the
spec's. -/
theorem c9_download_filename_witness :
    downloadName "video.mp4".toList = specDownloadName "video.mp4".toList :=
  (c9_download_filename "video.mp4".toList).mpr (by decide)

/-! ## Helper lemmas: angle wrapping -/

open Real

lemma jsMod_of_nonneg {x : ℝ} (hx : 0 ≤ x) : jsMod (2 * π) x = wrapAngle x := by
  unfold jsMod wrapAngle
  rw [if_pos hx, Int.fract, mul_sub, mul_div_cancel₀ _ two_pi_pos.ne']

lemma wrapAngle_nonneg (x : ℝ) : 0 ≤ wrapAngle x :=
  mul_nonneg two_pi_pos.le (Int.fract_nonneg _)

lemma wrapAngle_lt (x : ℝ) : wrapAngle x < 2 * π := by
  have h := Int.fract_lt_one (x / (2 * π))
  calc (2 * π) * Int.fract (x / (2 * π)) < (2 * π) * 1 :=
        mul_lt_mul_of_pos_left h two_pi_pos
    _ = 2 * π := mul_one _

lemma wrapAngle_eq_sub (x : ℝ) : wrapAngle x = x - 2 * π * ⌊x / (2 * π)⌋ := by
  unfold wrapAngle
  rw [Int.fract, mul_sub, mul_div_cancel₀ _ two_pi_pos.ne']

lemma wrapAngle_sub_int (x : ℝ) : ∃ k : ℤ, wrapAngle x = x - 2 * π * k :=
  ⟨⌊x / (2 * π)⌋, wrapAngle_eq_sub x⟩

lemma wrapAngle_add_int (x : ℝ) (k : ℤ) : wrapAngle (x + 2 * π * k) = wrapAngle x := by
  unfold wrapAngle
  congr 1
  have h : (x + 2 * π * k) / (2 * π) = x / (2 * π) + k := by
    field_simp
    ring
  rw [h, Int.fract_add_int]

lemma wrapAngle_eq_self {x : ℝ} (h0 : 0 ≤ x) (h1 : x < 2 * π) : wrapAngle x = x := by
  unfold wrapAngle
  rw [Int.fract_eq_self.2 ⟨div_nonneg h0 two_pi_pos.le, (div_lt_one two_pi_pos).2 h1⟩,
    mul_div_cancel₀ _ two_pi_pos.ne']

lemma wrapAngle_wrap_add (x c : ℝ) : wrapAngle (wrapAngle x + c) = wrapAngle (x + c) := by
  have h : wrapAngle x + c = x + c + 2 * π * (-⌊x / (2 * π)⌋ : ℤ) := by
    rw [wrapAngle_eq_sub]
    push_cast
    ring
  rw [h, wrapAngle_add_int]

lemma jsMod_double {x : ℝ} (hx : -(2 * π) < x) :
    jsMod (2 * π) (jsMod (2 * π) x + 2 * π) = wrapAngle x := by
  rcases le_or_lt 0 x with h0 | h0
  · rw [jsMod_of_nonneg h0,
      jsMod_of_nonneg (by linarith [wrapAngle_nonneg x, two_pi_pos] : 0 ≤ wrapAngle x + 2 * π),
      wrapAngle_wrap_add]
    have h : x + 2 * π = x + 2 * π * ((1 : ℤ) : ℝ) := by push_cast; ring
    rw [h, wrapAngle_add_int]
  · have hceil : ⌈x / (2 * π)⌉ = 0 := by
      rw [Int.ceil_eq_zero_iff]
      constructor
      · exact (lt_div_iff₀ two_pi_pos).2 (by linarith)
      · exact div_nonpos_of_nonpos_of_nonneg h0.le two_pi_pos.le
    have hinner : jsMod (2 * π) x = x := by
      unfold jsMod
      rw [if_neg (not_le.2 h0), hceil]
      simp
    rw [hinner, jsMod_of_nonneg (by linarith : 0 ≤ x + 2 * π)]
    have h : x + 2 * π = x + 2 * π * ((1 : ℤ) : ℝ) := by push_cast; ring
    rw [h, wrapAngle_add_int]

lemma rotationIncrement_pos : 0 < rotationIncrementPerFrame := by
  unfold rotationIncrementPerFrame
  positivity

lemma rotationIncrement_lt : rotationIncrementPerFrame < 2 * π := by
  unfold rotationIncrementPerFrame
  exact div_lt_self two_pi_pos (by norm_num)

/-- Closed form of the per-frame angle updates: after `n` frames the
two refs hold `n * inc` and `π/2 - n * inc`, each wrapped into
`[0, 2π)`. -/
lemma rotationAngles_eq (n : ℕ) :
    rotationAngles n =
      (wrapAngle (n * rotationIncrementPerFrame),
       wrapAngle (π / 2 - n * rotationIncrementPerFrame)) := by
  induction n with
  | zero =>
      have h1 : wrapAngle 0 = 0 := by
        unfold wrapAngle
        rw [zero_div, Int.fract_zero, mul_zero]
      have h2 : wrapAngle (π / 2) = π / 2 :=
        wrapAngle_eq_self (by linarith [pi_pos]) (by linarith [pi_pos])
      simp [rotationAngles, h1, h2]
  | succ n ih =>
      have hstep : rotationAngles (n + 1) =
          (jsMod (2 * π) ((rotationAngles n).1 + rotationIncrementPerFrame),
           jsMod (2 * π)
             (jsMod (2 * π) ((rotationAngles n).2 - rotationIncrementPerFrame) + 2 * π)) := rfl
      rw [hstep, ih]
      dsimp
      rw [Prod.mk.injEq]
      constructor
      · rw [jsMod_of_nonneg
          (add_nonneg (wrapAngle_nonneg _) rotationIncrement_pos.le),
          wrapAngle_wrap_add]
        congr 1
        push_cast
        ring
      · have hgt : -(2 * π) <
            wrapAngle (π / 2 - n * rotationIncrementPerFrame) - rotationIncrementPerFrame := by
          linarith [wrapAngle_nonneg (π / 2 - n * rotationIncrementPerFrame),
            rotationIncrement_lt]
        rw [jsMod_double hgt, sub_eq_add_neg, wrapAngle_wrap_add]
        congr 1
        push_cast
        ring

lemma rotationAngles_one_fst : (rotationAngles 1).1 = rotationIncrementPerFrame := by
  rw [rotationAngles_eq]
  dsimp
  rw [Nat.cast_one, one_mul]
  exact wrapAngle_eq_self rotationIncrement_pos.le rotationIncrement_lt

lemma rotationAngles_one_snd :
    (rotationAngles 1).2 = π / 2 - rotationIncrementPerFrame := by
  rw [rotationAngles_eq]
  dsimp
  rw [Nat.cast_one, one_mul]
  have h0 : 0 ≤ π / 2 - rotationIncrementPerFrame := by
    unfold rotationIncrementPerFrame
    nlinarith [pi_pos]
  have h1 : π / 2 - rotationIncrementPerFrame < 2 * π := by
    linarith [rotationIncrement_pos, pi_pos]
  exact wrapAngle_eq_self h0 h1

/-! ## C3 -/

/-- C3 is refuted on its mutual-offset part: after 1 frame the angles
are `inc` and `π/2 - inc`, whose difference is `2·1·inc − π/2` — off by
the initial π/2 separation of the two refs (one line starts horizontal,
the other vertical), so in neither direction does the offset equal
`2·N·inc (mod 2π)` at `N = 1`. -/
theorem c3_counterexample :
    ¬ ∃ k : ℤ,
      (rotationAngles 1).1 - (rotationAngles 1).2
          = 2 * 1 * rotationIncrementPerFrame + 2 * π * k ∨
      (rotationAngles 1).2 - (rotationAngles 1).1
          = 2 * 1 * rotationIncrementPerFrame + 2 * π * k := by
  rw [rotationAngles_one_fst, rotationAngles_one_snd]
  rintro ⟨k, hk | hk⟩
  · have ha : π * (-(1/2) : ℝ) = π * (2 * k) := by linear_combination hk
    have hb : (-(1/2) : ℝ) = 2 * k := mul_left_cancel₀ pi_ne_zero ha
    have hc : ((-1 : ℤ) : ℝ) = ((4 * k : ℤ) : ℝ) := by push_cast; linarith
    have hd : (-1 : ℤ) = 4 * k := Int.cast_injective hc
    omega
  · unfold rotationIncrementPerFrame at hk
    have ha : π * ((221 : ℝ)/450) = π * (2 * k) := by linear_combination hk
    have hb : ((221 : ℝ)/450) = 2 * k := mul_left_cancel₀ pi_ne_zero ha
    have hc : ((221 : ℤ) : ℝ) = ((900 * k : ℤ) : ℝ) := by push_cast; linarith
    have hd : (221 : ℤ) = 900 * k := Int.cast_injective hc
    omega

/-- C3 (amended): with `enableRotatingLines` on, both phase angles stay
in `[0, 2π)` at every frame; per frame one advances by the fixed
increment `2π/(30·30)` and the other retreats by it (modulo 2π); and
after N frames the two angles differ by `π/2 − 2·N·increment` modulo 2π
— i.e. their offset has moved by `2·N·increment` away from the initial
π/2 separation, rather than being equal to `2·N·increment` itself. -/
theorem c3_rotating_phase :
    (∀ n : ℕ,
       0 ≤ (rotationAngles n).1 ∧ (rotationAngles n).1 < 2 * π ∧
       0 ≤ (rotationAngles n).2 ∧ (rotationAngles n).2 < 2 * π) ∧
    (∀ n : ℕ, ∃ k k' : ℤ,
       (rotationAngles (n + 1)).1 - (rotationAngles n).1
           = rotationIncrementPerFrame + 2 * π * k ∧
       (rotationAngles (n + 1)).2 - (rotationAngles n).2
           = -rotationIncrementPerFrame + 2 * π * k') ∧
    (∀ n : ℕ, ∃ k : ℤ,
       (rotationAngles n).2 - (rotationAngles n).1
           = π / 2 - 2 * n * rotationIncrementPerFrame + 2 * π * k) := by
  refine ⟨?_, ?_, ?_⟩
  · intro n
    rw [rotationAngles_eq]
    exact ⟨wrapAngle_nonneg _, wrapAngle_lt _, wrapAngle_nonneg _, wrapAngle_lt _⟩
  · intro n
    obtain ⟨k1, h1⟩ := wrapAngle_sub_int (((n : ℝ) + 1) * rotationIncrementPerFrame)
    obtain ⟨k2, h2⟩ := wrapAngle_sub_int ((n : ℝ) * rotationIncrementPerFrame)
    obtain ⟨k3, h3⟩ := wrapAngle_sub_int (π / 2 - ((n : ℝ) + 1) * rotationIncrementPerFrame)
    obtain ⟨k4, h4⟩ := wrapAngle_sub_int (π / 2 - (n : ℝ) * rotationIncrementPerFrame)
    refine ⟨k2 - k1, k4 - k3, ?_, ?_⟩
    · rw [rotationAngles_eq, rotationAngles_eq]
      dsimp
      rw [show ((n + 1 : ℕ) : ℝ) = (n : ℝ) + 1 by push_cast; ring]
      rw [h1, h2]
      push_cast
      ring
    · rw [rotationAngles_eq, rotationAngles_eq]
      dsimp
      rw [show ((n + 1 : ℕ) : ℝ) = (n : ℝ) + 1 by push_cast; ring]
      rw [h3, h4]
      push_cast
      ring
  · intro n
    obtain ⟨k1, h1⟩ := wrapAngle_sub_int ((n : ℝ) * rotationIncrementPerFrame)
    obtain ⟨k2, h2⟩ := wrapAngle_sub_int (π / 2 - (n : ℝ) * rotationIncrementPerFrame)
    refine ⟨k1 - k2, ?_⟩
    rw [rotationAngles_eq]
    dsimp
    rw [h1, h2]
    push_cast
    ring

end VideoStealth
